import Mathlib

/-!
Shallow embedding of the vymanga-downloader core (src/models.py and
src/downloader.py) and verification of its specification claims.

Modelling conventions:
* Python `float` chapter keys are modelled as `ℚ` (every finite float is a
  rational); `float.is_integer()` becomes `q.den = 1`.
* Python string formatting of integers is modelled with an explicit
  base-10 digit rendering (`natStr`, `pad3`).
* The threaded executors (`ThreadPoolExecutor` + `as_completed`) are
  determinized to submission-list order; the claims settled here are about
  fold results and the progress-state trace, which the source computes the
  same way for every completion order.
* The network is an environment parameter: a fetch outcome per page, and
  per-attempt outcomes for the retrying worker.
* Every assignment to a field of `self.progress` emits a `RunEvent.mutate`
  carrying the state after the assignment, and every `_notify_progress()`
  call emits `RunEvent.notify` carrying the snapshot it dispatches, so that
  trace-level claims (monotonicity, notification points) are statable.
-/

namespace VyManga

/-- `Page` (src/models.py lines 12-23): one page/image in a chapter. -/
structure Page where
  url : String
  filename : String
  page_number : Nat
  downloaded : Bool := false
  file_path : Option String := none
deriving Repr, DecidableEq

/-- Base-10 rendering of a natural number, the model of Python `str(int)`
for non-negative values (`Nat.digits` is little-endian, hence the
`reverse`). -/
def natStr (n : Nat) : String :=
  if n = 0 then "0"
  else String.mk (((Nat.digits 10 n).reverse).map Nat.digitChar)

/-- Rendering of a Python `int` (sign plus decimal digits). -/
def intStr (i : Int) : String :=
  if i < 0 then "-" ++ natStr i.natAbs else natStr i.natAbs

/-- The little-endian digit list of `n` zero-padded (at the significant
end) to width at least 3: the digits behind Python `f"{n:03d}"` for a
natural `n`. -/
def padDigits3 (n : Nat) : List Nat :=
  Nat.digits 10 n ++ List.replicate (3 - (Nat.digits 10 n).length) 0

/-- Python `f"{n:03d}"` for a natural `n`: zero-padded base-10 rendering. -/
def pad3 (n : Nat) : String :=
  String.mk ((padDigits3 n).reverse.map Nat.digitChar)

/-- The page filename `f"page_{page_number:03d}.jpg"` built by
`Chapter.add_page` / `Page.__post_init__` (src/models.py lines 21-23, 50). -/
def page_filename (page_number : Nat) : String :=
  "page_" ++ pad3 page_number ++ ".jpg"

/-- `Chapter` (src/models.py lines 26-54). The `number` key supports
fractional chapters (e.g. 1.5); `published_date` is kept abstractly as an
optional string. -/
structure Chapter where
  title : String
  number : ℚ
  url : String
  pages : List Page := []
  downloaded : Bool := false
  download_path : Option String := none
  published_date : Option String := none
  chapter_id : Option String := none
deriving Repr, DecidableEq

/-- Round a rational to the nearest integer, ties to even: the rounding
Python's fixed-point formatting applies when printing one decimal place. -/
def roundHalfEven (q : ℚ) : Int :=
  let f := ⌊q⌋
  let r := q - f
  if r < 1/2 then f
  else if 1/2 < r then f + 1
  else if f % 2 = 0 then f else f + 1

/-- Python `f"{x:.1f}"`: the value rounded to tenths, rendered with exactly
one digit after the decimal point. -/
def format1f (q : ℚ) : String :=
  let t : Int := roundHalfEven (q * 10)
  (if t < 0 then "-" else "") ++ natStr (t.natAbs / 10) ++ "." ++ natStr (t.natAbs % 10)

/-- `Chapter.chapter_folder_name` (src/models.py lines 38-44): integer keys
render without decimals, fractional keys with one decimal place. -/
def Chapter.chapter_folder_name (c : Chapter) : String :=
  if c.number.den = 1 then "Chapter_" ++ intStr c.number.num
  else "Chapter_" ++ format1f c.number

/-- `Chapter.add_page` (src/models.py lines 46-54): appends a page whose
filename is derived from the ordinal. -/
def Chapter.add_page (c : Chapter) (page_url : String) (page_number : Nat) :
    Chapter × Page :=
  let page : Page :=
    { url := page_url, filename := page_filename page_number, page_number := page_number }
  ({ c with pages := c.pages ++ [page] }, page)

/-- `Manga` (src/models.py lines 57-101). -/
structure Manga where
  title : String
  url : String
  author : String := ""
  status : String := ""
  genres : List String := []
  summary : String := ""
  cover_url : String := ""
  chapters : List Chapter := []
  downloaded : Bool := false
  download_path : Option String := none
deriving Repr, DecidableEq

/-- `os.path.join` modelled with a fixed separator. -/
def pathJoin (a b : String) : String := a ++ "/" ++ b

/-- The sanitized folder name computed by `Manga.create_download_structure`
(src/models.py lines 92-101): keep alphanumerics, space, dash, underscore;
strip trailing whitespace; fall back to a fixed name when empty. -/
def sanitize_title (title : String) : String :=
  let kept := title.data.filter (fun c => c.isAlphanum || c = ' ' || c = '-' || c = '_')
  let stripped := (kept.reverse.dropWhile Char.isWhitespace).reverse
  if stripped = [] then "untitled_manga" else String.mk stripped

/-- `Manga.create_download_structure` (src/models.py lines 92-101), minus
the filesystem side effect: records the run's base directory. -/
def Manga.create_download_structure (m : Manga) (base_path : String) : Manga :=
  { m with download_path := some (pathJoin base_path (sanitize_title m.title)) }

/-- `Manga.get_chapters_in_range` (src/models.py lines 88-90). -/
def Manga.get_chapters_in_range (m : Manga) (s e : ℚ) : List Chapter :=
  m.chapters.filter (fun ch => s ≤ ch.number && ch.number ≤ e)

/-- `DownloadProgress` (src/models.py lines 104-130). -/
structure DownloadProgress where
  total_files : Nat := 0
  downloaded_files : Nat := 0
  current_chapter : Option String := none
  current_file : Option String := none
  speed : ℚ := 0
  eta : Option String := none
  status : String := "idle"
deriving Repr, DecidableEq

/-- `DownloadProgress.progress_percent` (src/models.py lines 115-120):
guarded division, 0.0 when no files are counted. -/
def DownloadProgress.progress_percent (p : DownloadProgress) : ℚ :=
  if p.total_files = 0 then 0
  else ((p.downloaded_files : ℚ) / (p.total_files : ℚ)) * 100

/-- `DownloadProgress.reset` (src/models.py lines 122-130). -/
def DownloadProgress.reset (_p : DownloadProgress) : DownloadProgress :=
  { total_files := 0, downloaded_files := 0, current_chapter := none,
    current_file := none, speed := 0, eta := none, status := "idle" }

/-! ### The retrying fetcher (`DownloadWorker.download_file`, src/downloader.py lines 18-85) -/

/-- The environment's verdict on one attempt of `download_file`:
* `ok`: the request streamed and the written file exists with non-zero
  size (`return True`, line 69);
* `emptyFile`: the request streamed but the file check fails
  (`return False`, line 72 — no retry);
* `transportErr`: `requests.RequestException` (lines 74-78 — retried,
  with backoff before all but the final attempt);
* `localErr`: any other exception (lines 80-82 — `break`, then
  `return False`). -/
inductive AttemptOutcome
  | ok
  | emptyFile
  | transportErr
  | localErr
deriving Repr, DecidableEq

/-- The observable behaviour of one `download_file` call: how many
attempts ran, the backoff sleeps (in order, `time.sleep` argument), and
the returned boolean. -/
structure FetchTrace where
  attempts : Nat
  sleeps : List Nat
  result : Bool
deriving Repr, DecidableEq

/-- What `session.get(url, ...)` effectively yields per attempt: an empty
URL makes `requests` raise `MissingSchema`, a subclass of
`RequestException`, before any network traffic, on every attempt; any
other URL defers to the environment. -/
def attemptFor (url : String) (env : Nat → AttemptOutcome) (i : Nat) : AttemptOutcome :=
  if url = "" then AttemptOutcome.transportErr else env i

/-- The retry loop of `download_file` (src/downloader.py lines 44-85) over
the remaining attempt indices: `for attempt in range(max_retries)` with
`time.sleep(2 ** attempt)` after a `RequestException` when
`attempt < max_retries - 1`, early `return` on a settled attempt, `break`
on an unexpected exception, and `return False` after the loop. -/
def download_file_loop (outcome : Nat → AttemptOutcome) (max_retries : Nat) :
    List Nat → FetchTrace
  | [] => { attempts := 0, sleeps := [], result := false }
  | attempt :: remaining =>
    match outcome attempt with
    | AttemptOutcome.ok => { attempts := 1, sleeps := [], result := true }
    | AttemptOutcome.emptyFile => { attempts := 1, sleeps := [], result := false }
    | AttemptOutcome.localErr => { attempts := 1, sleeps := [], result := false }
    | AttemptOutcome.transportErr =>
      let rest := download_file_loop outcome max_retries remaining
      if attempt < max_retries - 1 then
        { attempts := rest.attempts + 1, sleeps := 2 ^ attempt :: rest.sleeps,
          result := rest.result }
      else
        { attempts := rest.attempts + 1, sleeps := rest.sleeps, result := rest.result }

/-- `DownloadWorker.download_file` (src/downloader.py lines 32-85). The
`file_path` argument does not influence control flow (directory creation
and the file write are side effects whose success/failure the environment
already encodes in the per-attempt outcome). -/
def DownloadWorker.download_file (max_retries : Nat) (url file_path : String)
    (env : Nat → AttemptOutcome) : FetchTrace :=
  download_file_loop (attemptFor url env) max_retries (List.range max_retries)

/-! ### The orchestrator (`MangaDownloader`, src/downloader.py lines 88-356)

The threaded run is determinized to submission order; every assignment to
a field of `self.progress` emits a `mutate` event carrying the state after
the assignment, every `_notify_progress()` call emits a `notify` event,
and the start of each per-page fetch emits a `fetchStart` event. -/

/-- One observable step of a run. -/
inductive RunEvent
  | mutate (p : DownloadProgress)
  | notify (p : DownloadProgress)
  | fetchStart (filename : String)
deriving Repr, DecidableEq

/-- `MangaDownloader.__init__` state (src/downloader.py lines 91-112):
tunables, the shared progress object, the registered callbacks (by id;
their behaviour is an environment parameter), and the shared cancellation
signal `self._stop_event`. -/
structure MangaDownloader where
  max_workers : Nat := 4
  max_retries : Nat := 3
  progress : DownloadProgress := {}
  progress_callbacks : List Nat := []
  stop_event : Bool := false
deriving Repr, DecidableEq

/-- `MangaDownloader.add_progress_callback` (src/downloader.py lines
114-122). -/
def add_progress_callback (d : MangaDownloader) (cb : Nat) : MangaDownloader :=
  { d with progress_callbacks := d.progress_callbacks ++ [cb] }

/-- `MangaDownloader._notify_progress` (src/downloader.py lines 124-131):
`for callback in self.progress_callbacks: try callback(self.progress)
except: log`. Returns the invocations performed (callback id with the
snapshot it received, in call order) and the error log. -/
def notify_progress (behav : Nat → DownloadProgress → Except String Unit) :
    List Nat → DownloadProgress → List (Nat × DownloadProgress) × List String
  | [], _ => ([], [])
  | cb :: rest, p =>
    let r := notify_progress behav rest p
    match behav cb p with
    | Except.ok _ => ((cb, p) :: r.1, r.2)
    | Except.error e => ((cb, p) :: r.1, ("Progress callback error: " ++ e) :: r.2)

/-- Settling one page inside `_download_chapter`'s completion loop
(src/downloader.py lines 230-245): the fetch's boolean is recorded on the
page, `downloaded_files` is incremented (success or failure alike) and
`current_file` updated. -/
def settle_page (fetch : Page → Bool) (p : DownloadProgress) (page : Page) :
    Page × DownloadProgress × Bool × List RunEvent :=
  let success := fetch page
  let page1 := { page with downloaded := success }
  let p1 := { p with downloaded_files := p.downloaded_files + 1 }
  let p2 := { p1 with current_file := some page.filename }
  (page1, p2, success,
    [RunEvent.fetchStart page.filename, RunEvent.mutate p1, RunEvent.mutate p2])

/-- Accumulator of the per-page loop of `_download_chapter`. -/
structure PageAcc where
  pages : List Page
  progress : DownloadProgress
  ok : Bool
  events : List RunEvent
deriving Repr, DecidableEq

/-- The page as handed to the fetch: `page.file_path` is set at submit
time (src/downloader.py line 226). -/
def pageWithPath (chapter_path : String) (page : Page) : Page :=
  { page with file_path := some (pathJoin chapter_path page.filename) }

/-- One iteration of the per-page loop: the submit sets `page.file_path`
(src/downloader.py line 226), then the settled outcome is folded into
`chapter_success` (lines 233-245). -/
def page_step (fetch : Page → Bool) (chapter_path : String) (acc : PageAcc)
    (page : Page) : PageAcc :=
  let page0 := pageWithPath chapter_path page
  let r := settle_page fetch acc.progress page0
  { pages := acc.pages ++ [r.1], progress := r.2.1, ok := acc.ok && r.2.2.1,
    events := acc.events ++ r.2.2.2 }

/-- Result of `_download_chapter`: the updated chapter, the progress state
on exit, the chapter-level boolean, and the emitted events. -/
structure ChapterRun where
  chapter : Chapter
  progress : DownloadProgress
  ok : Bool
  events : List RunEvent
deriving Repr, DecidableEq

/-- `MangaDownloader._download_chapter` (src/downloader.py lines 188-260):
early `False` on an empty page list or an unset manga download path;
otherwise set `current_chapter`, settle every page, record
`chapter.downloaded`, clear `current_chapter`/`current_file`, and notify
once. -/
def download_chapter (fetch : Page → Bool) (p : DownloadProgress) (manga : Manga)
    (chapter : Chapter) : ChapterRun :=
  if chapter.pages = [] then { chapter := chapter, progress := p, ok := false, events := [] }
  else
    match manga.download_path with
    | none => { chapter := chapter, progress := p, ok := false, events := [] }
    | some base =>
      let chapter_path := pathJoin base chapter.chapter_folder_name
      let chapter1 := { chapter with download_path := some chapter_path }
      let p0 := { p with current_chapter := some chapter.title }
      let r := chapter1.pages.foldl (page_step fetch chapter_path)
        { pages := [], progress := p0, ok := true, events := [RunEvent.mutate p0] }
      let chapter2 := { chapter1 with pages := r.pages, downloaded := r.ok }
      let p1 := { r.progress with current_chapter := none }
      let p2 := { p1 with current_file := none }
      { chapter := chapter2, progress := p2, ok := r.ok,
        events := r.events ++ [RunEvent.mutate p1, RunEvent.mutate p2, RunEvent.notify p2] }

/-- The chapter-level boolean of `_download_chapter`, as a function of the
fetch environment, the manga's base path and the chapter alone. -/
def chapter_ok (fetch : Page → Bool) (dpath : Option String) (c : Chapter) : Bool :=
  if c.pages = [] then false
  else
    match dpath with
    | none => false
    | some base =>
      c.pages.all (fun page => fetch (pageWithPath (pathJoin base c.chapter_folder_name) page))

/-- The download-path setup at the top of `download_manga`
(src/downloader.py lines 146-150). -/
def setup_download_path (cwd : String) (manga : Manga) (download_path : Option String) :
    Manga :=
  match download_path with
  | some p => { manga with download_path := some p }
  | none =>
    match manga.download_path with
    | some _ => manga
    | none => manga.create_download_structure (pathJoin cwd "downloads")

/-- `total_files = sum(len(chapter.pages) for chapter in manga.chapters)`
(src/downloader.py line 153). -/
def totalPages (m : Manga) : Nat := (m.chapters.map (fun c => c.pages.length)).sum

/-- Result of `download_manga`: the updated manga, the final progress
state, the series-level boolean, and the emitted events. -/
structure MangaRun where
  manga : Manga
  progress : DownloadProgress
  ok : Bool
  events : List RunEvent
deriving Repr, DecidableEq

/-- Accumulator of the per-chapter loop of `download_manga`. -/
structure ChapterAcc where
  chapters : List Chapter
  progress : DownloadProgress
  ok : Bool
  events : List RunEvent
deriving Repr, DecidableEq

/-- One iteration of the per-chapter loop of `download_manga`
(src/downloader.py lines 170-179): a failed chapter clears the series
boolean but does not stop the others. -/
def chapter_step (fetch : Page → Bool) (manga : Manga) (acc : ChapterAcc)
    (chapter : Chapter) : ChapterAcc :=
  let cr := download_chapter fetch acc.progress manga chapter
  { chapters := acc.chapters ++ [cr.chapter], progress := cr.progress,
    ok := acc.ok && cr.ok, events := acc.events ++ cr.events }

/-- `MangaDownloader.download_manga` (src/downloader.py lines 133-186):
path setup, commit of `total_files`, reset of `downloaded_files`, status
`downloading`, the chapter fan-out/fan-in, the final status
(`completed`/`error`), one notification, and the series boolean. -/
def download_manga (fetch : Page → Bool) (cwd : String) (d : MangaDownloader)
    (manga : Manga) (download_path : Option String) : MangaRun :=
  let manga1 := setup_download_path cwd manga download_path
  let p1 := { d.progress with total_files := totalPages manga1 }
  let p2 := { p1 with downloaded_files := 0 }
  let p3 := { p2 with status := "downloading" }
  let r := manga1.chapters.foldl (chapter_step fetch manga1)
    { chapters := [], progress := p3, ok := true,
      events := [RunEvent.mutate p1, RunEvent.mutate p2, RunEvent.mutate p3] }
  let pf := { r.progress with status := if r.ok then "completed" else "error" }
  { manga := { manga1 with chapters := r.chapters }, progress := pf, ok := r.ok,
    events := r.events ++ [RunEvent.mutate pf, RunEvent.notify pf] }

/-- `MangaDownloader.pause_download` (src/downloader.py lines 319-324):
status `paused`, raise the shared signal, notify. -/
def pause_download (d : MangaDownloader) : MangaDownloader × List RunEvent :=
  let p := { d.progress with status := "paused" }
  ({ d with progress := p, stop_event := true }, [RunEvent.mutate p, RunEvent.notify p])

/-- `MangaDownloader.resume_download` (src/downloader.py lines 326-331). -/
def resume_download (d : MangaDownloader) : MangaDownloader × List RunEvent :=
  let p := { d.progress with status := "downloading" }
  ({ d with progress := p, stop_event := false }, [RunEvent.mutate p, RunEvent.notify p])

/-- `MangaDownloader.stop_download` (src/downloader.py lines 333-338):
status `idle`, raise the shared signal, notify. -/
def stop_download (d : MangaDownloader) : MangaDownloader × List RunEvent :=
  let p := { d.progress with status := "idle" }
  ({ d with progress := p, stop_event := true }, [RunEvent.mutate p, RunEvent.notify p])

/-! ### Fold lemmas for the two loops -/

/-- The progress snapshots carried by a run's events, in order: the value
of `self.progress` after each assignment and at each notification. -/
def statesOf (evs : List RunEvent) : List DownloadProgress :=
  evs.filterMap (fun e => match e with
    | RunEvent.mutate p => some p
    | RunEvent.notify p => some p
    | RunEvent.fetchStart _ => none)

/-- Recognizes the start of a per-asset fetch. -/
def isFetchStart : RunEvent → Bool
  | RunEvent.fetchStart _ => true
  | _ => false

/-- One progress assignment during a run: the completed counter grows by
at most one and the committed total is untouched. -/
def StepOK (a b : DownloadProgress) : Prop :=
  (b.downloaded_files = a.downloaded_files ∨
    b.downloaded_files = a.downloaded_files + 1) ∧
  b.total_files = a.total_files

/-- `TraceOK p evs q`: starting from snapshot `p`, the event list `evs` is
a consistent run trace — every mutation is a `StepOK` step, every
notification dispatches the then-current snapshot — ending at snapshot
`q`. -/
def TraceOK (p : DownloadProgress) : List RunEvent → DownloadProgress → Prop
  | [], q => q = p
  | RunEvent.mutate r :: rest, q => StepOK p r ∧ TraceOK r rest q
  | RunEvent.notify r :: rest, q => r = p ∧ TraceOK p rest q
  | RunEvent.fetchStart _ :: rest, q => TraceOK p rest q

/-- The claim "after every mutation of the progress state, the observers
are notified", as a check on an event trace: every `mutate` event is
immediately followed by a `notify` event. -/
def mutationsNotified : List RunEvent → Bool
  | [] => true
  | RunEvent.mutate _ :: rest =>
    (match rest with
     | RunEvent.notify _ :: _ => true
     | _ => false) && mutationsNotified rest
  | _ :: rest => mutationsNotified rest

/-! ### Theorems -/

/-- C10: `progress_percent` is total: it returns 0 when `total_files` is 0
instead of dividing by zero, and otherwise `(downloaded_files /
total_files) * 100`; being a total Lean function over `ℚ`, it never
raises. -/
theorem C10_progress_percent_total (p : DownloadProgress) :
    (p.total_files = 0 → p.progress_percent = 0) ∧
    (p.total_files ≠ 0 →
      p.progress_percent = ((p.downloaded_files : ℚ) / (p.total_files : ℚ)) * 100) := by
  constructor
  · intro h
    simp [DownloadProgress.progress_percent, h]
  · intro h
    simp [DownloadProgress.progress_percent, h]

/-- Witness for C10 at a concrete progress state (1 of 4 files done). -/
theorem C10_progress_percent_total_witness :
    ({ total_files := 4, downloaded_files := 1 } : DownloadProgress).progress_percent
      = (((1 : Nat) : ℚ) / ((4 : Nat) : ℚ)) * 100 :=
  (C10_progress_percent_total { total_files := 4, downloaded_files := 1 }).2 (by decide)

/-- Closed form of the retry loop when every attempt fails at transport
level. -/
theorem download_file_loop_allfail (outcome : Nat → AttemptOutcome)
    (hout : ∀ i, outcome i = AttemptOutcome.transportErr) :
    ∀ fuel attempt max_retries, attempt + fuel = max_retries →
    download_file_loop outcome max_retries (List.range' attempt fuel) =
      { attempts := fuel,
        sleeps := (List.range' attempt (max_retries - 1 - attempt)).map (fun a => 2 ^ a),
        result := false } := by
  intro fuel
  induction fuel with
  | zero =>
    intro attempt max_retries hsum
    have h2 : max_retries - 1 - attempt = 0 := by omega
    rw [h2]
    simp [download_file_loop]
  | succ n ih =>
    intro attempt max_retries hsum
    rw [List.range'_succ, download_file_loop]
    simp only [hout attempt]
    rw [ih (attempt + 1) max_retries (by omega)]
    by_cases hmid : attempt < max_retries - 1
    · simp only [hmid, if_true]
      have h2 : max_retries - 1 - attempt = (max_retries - 1 - (attempt + 1)) + 1 := by omega
      rw [h2, List.range'_succ]
      simp
    · simp only [hmid, if_false]
      have h2 : max_retries - 1 - (attempt + 1) = 0 := by omega
      have h3 : max_retries - 1 - attempt = 0 := by omega
      rw [h2, h3]
      simp

/-- C3: against an endpoint whose every attempt raises a transport-level
failure, `download_file` performs exactly `max_retries` attempts, sleeps
`2^attempt` between consecutive attempts (0-based, so 1, 2, 4, …, one
sleep fewer than attempts, hence none after the final attempt), the
sleeps are strictly increasing, and the result is `false`. -/
theorem C3_retry_budget (max_retries : Nat) (url file_path : String)
    (env : Nat → AttemptOutcome) (henv : ∀ i, env i = AttemptOutcome.transportErr) :
    (DownloadWorker.download_file max_retries url file_path env).attempts = max_retries ∧
    (DownloadWorker.download_file max_retries url file_path env).sleeps =
      (List.range (max_retries - 1)).map (fun a => 2 ^ a) ∧
    (DownloadWorker.download_file max_retries url file_path env).sleeps.Chain' (· < ·) ∧
    (DownloadWorker.download_file max_retries url file_path env).result = false := by
  have hout : ∀ i, attemptFor url env i = AttemptOutcome.transportErr := by
    intro i
    unfold attemptFor
    split <;> simp [henv i]
  have h := download_file_loop_allfail (attemptFor url env) hout max_retries 0
    max_retries (by omega)
  unfold DownloadWorker.download_file
  rw [List.range_eq_range', h]
  refine ⟨rfl, by simp [List.range_eq_range'], ?_, rfl⟩
  have hr : (List.range' 0 (max_retries - 1 - 0)).Pairwise (· < ·) := by
    rw [← List.range_eq_range']
    exact List.pairwise_lt_range _
  have hpair := List.Pairwise.map (fun a => 2 ^ a)
    (fun a b hab => Nat.pow_lt_pow_right (by omega) hab) hr
  exact hpair.chain'

/-- Witness for C3: three retries against an always-failing endpoint give
3 attempts, sleeps 1 then 2, and `false`. -/
theorem C3_retry_budget_witness :
    (DownloadWorker.download_file 3 "http://host/a.jpg" "/tmp/a.jpg"
        (fun _ => AttemptOutcome.transportErr)).attempts = 3 ∧
    (DownloadWorker.download_file 3 "http://host/a.jpg" "/tmp/a.jpg"
        (fun _ => AttemptOutcome.transportErr)).sleeps =
      (List.range 2).map (fun a => 2 ^ a) ∧
    (DownloadWorker.download_file 3 "http://host/a.jpg" "/tmp/a.jpg"
        (fun _ => AttemptOutcome.transportErr)).sleeps.Chain' (· < ·) ∧
    (DownloadWorker.download_file 3 "http://host/a.jpg" "/tmp/a.jpg"
        (fun _ => AttemptOutcome.transportErr)).result = false :=
  C3_retry_budget 3 "http://host/a.jpg" "/tmp/a.jpg" _ (fun _ => rfl)

/-- C7 counterexample: an empty URL is not reported distinctly from
ordinary boolean failure — the call with an empty URL and an environment
that would succeed behaves exactly like a call against an always-failing
endpoint (same attempts, same backoff sleeps, same plain `false`), because
`MissingSchema` is a `RequestException` and takes the ordinary retry
path. -/
theorem C7_counterexample :
    DownloadWorker.download_file 3 "" "/tmp/a.jpg" (fun _ => AttemptOutcome.ok) =
      DownloadWorker.download_file 3 "http://host/a.jpg" "/tmp/a.jpg"
        (fun _ => AttemptOutcome.transportErr) := by
  decide

/-- C7 amended: `download_file` never raises to its caller — it is a total
function into a boolean-resulted trace — and ordinary network failures
are reported as `false`; but an empty URL is not distinguished: its
behaviour is independent of the environment, consumes the full retry
budget, and reports the same plain `false`. -/
theorem C7_empty_url_is_ordinary_failure (max_retries : Nat) («file_path» : String)
    (env env2 : Nat → AttemptOutcome) :
    DownloadWorker.download_file max_retries "" file_path env =
      DownloadWorker.download_file max_retries "" file_path env2 ∧
    (DownloadWorker.download_file max_retries "" file_path env).result = false ∧
    (DownloadWorker.download_file max_retries "" file_path env).attempts = max_retries := by
  have hout : ∀ e : Nat → AttemptOutcome, ∀ i,
      attemptFor "" e i = AttemptOutcome.transportErr := by
    intro e i
    unfold attemptFor
    simp
  have h1 := download_file_loop_allfail (attemptFor "" env) (hout env) max_retries 0
    max_retries (by omega)
  have h2 := download_file_loop_allfail (attemptFor "" env2) (hout env2) max_retries 0
    max_retries (by omega)
  unfold DownloadWorker.download_file
  rw [List.range_eq_range', h1, h2]
  exact ⟨rfl, rfl, rfl⟩

/-- The per-page fold's boolean is the conjunction of the per-page fetch
outcomes. -/
theorem page_fold_ok (fetch : Page → Bool) (cp : String) :
    ∀ (pages : List Page) (acc : PageAcc),
    (pages.foldl (page_step fetch cp) acc).ok =
      (acc.ok && pages.all (fun page => fetch (pageWithPath cp page))) := by
  intro pages
  induction pages with
  | nil => intro acc; simp
  | cons page rest ih =>
    intro acc
    rw [List.foldl_cons, ih]
    simp [page_step, settle_page, Bool.and_assoc]

/-- The per-page fold increments `downloaded_files` once per page. -/
theorem page_fold_downloaded (fetch : Page → Bool) (cp : String) :
    ∀ (pages : List Page) (acc : PageAcc),
    (pages.foldl (page_step fetch cp) acc).progress.downloaded_files =
      acc.progress.downloaded_files + pages.length := by
  intro pages
  induction pages with
  | nil => intro acc; simp
  | cons page rest ih =>
    intro acc
    rw [List.foldl_cons, ih]
    simp [page_step, settle_page]
    omega

/-- The per-page fold never touches `total_files`. -/
theorem page_fold_total (fetch : Page → Bool) (cp : String) :
    ∀ (pages : List Page) (acc : PageAcc),
    (pages.foldl (page_step fetch cp) acc).progress.total_files =
      acc.progress.total_files := by
  intro pages
  induction pages with
  | nil => intro acc; simp
  | cons page rest ih =>
    intro acc
    rw [List.foldl_cons, ih]
    simp [page_step, settle_page]

/-- `_download_chapter`'s boolean depends only on the fetch environment,
the manga's base path and the chapter — not on the progress state it is
given. -/
theorem download_chapter_ok (fetch : Page → Bool) (p : DownloadProgress) (manga : Manga)
    (chapter : Chapter) :
    (download_chapter fetch p manga chapter).ok =
      chapter_ok fetch manga.download_path chapter := by
  unfold download_chapter chapter_ok
  by_cases hpages : chapter.pages = []
  · simp [hpages]
  · simp only [hpages, if_false]
    cases manga.download_path with
    | none => rfl
    | some base =>
      simp only
      rw [page_fold_ok]
      simp

/-- The per-chapter fold's boolean is the conjunction of the chapter-level
booleans. -/
theorem chapter_fold_ok (fetch : Page → Bool) (manga : Manga) :
    ∀ (chapters : List Chapter) (acc : ChapterAcc),
    (chapters.foldl (chapter_step fetch manga) acc).ok =
      (acc.ok && chapters.all (chapter_ok fetch manga.download_path)) := by
  intro chapters
  induction chapters with
  | nil => intro acc; simp
  | cons c rest ih =>
    intro acc
    rw [List.foldl_cons, ih]
    simp [chapter_step, download_chapter_ok, Bool.and_assoc]

/-- The path setup never changes the chapter list. -/
theorem setup_download_path_chapters (cwd : String) (manga : Manga)
    (dpath : Option String) :
    (setup_download_path cwd manga dpath).chapters = manga.chapters := by
  unfold setup_download_path Manga.create_download_structure
  cases dpath with
  | some p => rfl
  | none => cases manga.download_path <;> rfl

/-- C1: the series-level boolean returned by `download_manga` is `true`
iff every chapter's `_download_chapter` call returned `true` (the first
conjunct pins the chapter-level boolean down as `chapter_ok`, independent
of the threaded progress state); on completion the status is `completed`
when every chapter succeeded and `error` otherwise; and the returned
boolean equals the test `status == "completed"`. -/
theorem C1_series_result (fetch : Page → Bool) (cwd : String) (d : MangaDownloader)
    (manga : Manga) (dpath : Option String) :
    (∀ (q : DownloadProgress) (c : Chapter),
      (download_chapter fetch q (setup_download_path cwd manga dpath) c).ok =
        chapter_ok fetch (setup_download_path cwd manga dpath).download_path c) ∧
    (download_manga fetch cwd d manga dpath).ok =
      (setup_download_path cwd manga dpath).chapters.all
        (chapter_ok fetch (setup_download_path cwd manga dpath).download_path) ∧
    (download_manga fetch cwd d manga dpath).progress.status =
      (if (download_manga fetch cwd d manga dpath).ok then "completed" else "error") ∧
    ((download_manga fetch cwd d manga dpath).ok =
      ((download_manga fetch cwd d manga dpath).progress.status == "completed")) := by
  refine ⟨fun q c => download_chapter_ok fetch q _ c, ?_, rfl, ?_⟩
  · unfold download_manga
    simp only [chapter_fold_ok, Bool.true_and]
  · cases hok : (download_manga fetch cwd d manga dpath).ok with
    | true =>
      have hst : (download_manga fetch cwd d manga dpath).progress.status = "completed" := by
        have heq : (download_manga fetch cwd d manga dpath).progress.status =
            (if (download_manga fetch cwd d manga dpath).ok then "completed" else "error") := rfl
        rw [heq, hok]
        rfl
      rw [hst]
      decide
    | false =>
      have hst : (download_manga fetch cwd d manga dpath).progress.status = "error" := by
        have heq : (download_manga fetch cwd d manga dpath).progress.status =
            (if (download_manga fetch cwd d manga dpath).ok then "completed" else "error") := rfl
        rw [heq, hok]
        rfl
      rw [hst]
      decide

/-- C2: for a chapter with a non-empty page list (and the manga's base
path set, the acquirer's other precondition), `_download_chapter` returns
the conjunction of the per-page fetch outcomes, records it in
`chapter.downloaded`, and exits with `current_chapter` and `current_file`
both cleared to `None`. -/
theorem C2_chapter_result (fetch : Page → Bool) (p : DownloadProgress) (manga : Manga)
    (chapter : Chapter) (base : String)
    (h1 : chapter.pages ≠ []) (h2 : manga.download_path = some base) :
    (download_chapter fetch p manga chapter).ok =
      chapter.pages.all (fun page =>
        fetch (pageWithPath (pathJoin base chapter.chapter_folder_name) page)) ∧
    (download_chapter fetch p manga chapter).chapter.downloaded =
      (download_chapter fetch p manga chapter).ok ∧
    (download_chapter fetch p manga chapter).progress.current_chapter = none ∧
    (download_chapter fetch p manga chapter).progress.current_file = none := by
  unfold download_chapter
  rw [if_neg h1, h2]
  refine ⟨?_, rfl, rfl, rfl⟩
  simp only [page_fold_ok, Bool.true_and]

/-- Witness for C2: a two-page chapter whose second page fails gives a
chapter boolean `false`, records it, and clears the progress fields. -/
theorem C2_chapter_result_witness :
    (download_chapter (fun page => page.url == "http://host/a")
        {} { title := "m", url := "u", download_path := some "/d" }
        { title := "c1", number := 1, url := "cu", pages :=
          [{ url := "http://host/a", filename := "page_001.jpg", page_number := 1 },
           { url := "http://host/b", filename := "page_002.jpg", page_number := 2 }] }).ok =
      [({ url := "http://host/a", filename := "page_001.jpg", page_number := 1 } : Page),
       { url := "http://host/b", filename := "page_002.jpg", page_number := 2 }].all
        (fun page => (fun page => page.url == "http://host/a")
          (pageWithPath (pathJoin "/d"
            ({ title := "c1", number := 1, url := "cu", pages :=
              [{ url := "http://host/a", filename := "page_001.jpg", page_number := 1 },
               { url := "http://host/b", filename := "page_002.jpg", page_number := 2 }] :
                Chapter }).chapter_folder_name) page)) ∧
    (download_chapter (fun page => page.url == "http://host/a")
        {} { title := "m", url := "u", download_path := some "/d" }
        { title := "c1", number := 1, url := "cu", pages :=
          [{ url := "http://host/a", filename := "page_001.jpg", page_number := 1 },
           { url := "http://host/b", filename := "page_002.jpg", page_number := 2 }] }).chapter.downloaded =
      (download_chapter (fun page => page.url == "http://host/a")
        {} { title := "m", url := "u", download_path := some "/d" }
        { title := "c1", number := 1, url := "cu", pages :=
          [{ url := "http://host/a", filename := "page_001.jpg", page_number := 1 },
           { url := "http://host/b", filename := "page_002.jpg", page_number := 2 }] }).ok ∧
    (download_chapter (fun page => page.url == "http://host/a")
        {} { title := "m", url := "u", download_path := some "/d" }
        { title := "c1", number := 1, url := "cu", pages :=
          [{ url := "http://host/a", filename := "page_001.jpg", page_number := 1 },
           { url := "http://host/b", filename := "page_002.jpg", page_number := 2 }] }).progress.current_chapter = none ∧
    (download_chapter (fun page => page.url == "http://host/a")
        {} { title := "m", url := "u", download_path := some "/d" }
        { title := "c1", number := 1, url := "cu", pages :=
          [{ url := "http://host/a", filename := "page_001.jpg", page_number := 1 },
           { url := "http://host/b", filename := "page_002.jpg", page_number := 2 }] }).progress.current_file = none :=
  C2_chapter_result (fun page => page.url == "http://host/a") {}
    { title := "m", url := "u", download_path := some "/d" }
    { title := "c1", number := 1, url := "cu", pages :=
      [{ url := "http://host/a", filename := "page_001.jpg", page_number := 1 },
       { url := "http://host/b", filename := "page_002.jpg", page_number := 2 }] }
    "/d" (by decide) rfl

/-- C5 counterexample: a run submitted with zero chapters is not rejected
as a contract violation — `download_manga` runs to completion, returns the
ordinary boolean `true` (vacuous success), and mutates the progress state
(status ends at `completed`, no longer the initial `idle`). -/
theorem C5_counterexample :
    (download_manga (fun _ => true) "/cwd" {} { title := "m", url := "u" }
      (some "/d")).ok = true ∧
    (download_manga (fun _ => true) "/cwd" {} { title := "m", url := "u" }
      (some "/d")).progress.status = "completed" ∧
    (download_manga (fun _ => true) "/cwd" {} { title := "m", url := "u" }
      (some "/d")).progress ≠ ({} : MangaDownloader).progress := by
  refine ⟨rfl, rfl, ?_⟩
  decide

/-- C5 amended: on a zero-chapter submission `download_manga` proceeds —
it commits a total of 0, resets the completed counter, and finishes with
status `completed` and result `true` (vacuous success), mutating the
progress state rather than rejecting the run. -/
theorem C5_zero_chapters_vacuous_success (fetch : Page → Bool) (cwd : String)
    (d : MangaDownloader) (manga : Manga) (dpath : Option String)
    (h : manga.chapters = []) :
    (download_manga fetch cwd d manga dpath).ok = true ∧
    (download_manga fetch cwd d manga dpath).progress.status = "completed" ∧
    (download_manga fetch cwd d manga dpath).progress.total_files = 0 ∧
    (download_manga fetch cwd d manga dpath).progress.downloaded_files = 0 := by
  have hch : (setup_download_path cwd manga dpath).chapters = [] := by
    rw [setup_download_path_chapters, h]
  unfold download_manga totalPages
  simp only [hch]
  exact ⟨rfl, rfl, rfl, rfl⟩

/-- Witness for C5's amended claim at a concrete zero-chapter manga. -/
theorem C5_zero_chapters_vacuous_success_witness :
    (download_manga (fun _ => false) "/cwd" {} { title := "m", url := "u" } none).ok = true ∧
    (download_manga (fun _ => false) "/cwd" {} { title := "m", url := "u" }
      none).progress.status = "completed" ∧
    (download_manga (fun _ => false) "/cwd" {} { title := "m", url := "u" }
      none).progress.total_files = 0 ∧
    (download_manga (fun _ => false) "/cwd" {} { title := "m", url := "u" }
      none).progress.downloaded_files = 0 :=
  C5_zero_chapters_vacuous_success (fun _ => false) "/cwd" {}
    { title := "m", url := "u" } none rfl

/-- Run traces compose. -/
theorem TraceOK_append : ∀ (evs1 : List RunEvent) (p q s : DownloadProgress)
    (evs2 : List RunEvent), TraceOK p evs1 q → TraceOK q evs2 s →
    TraceOK p (evs1 ++ evs2) s := by
  intro evs1
  induction evs1 with
  | nil =>
    intro p q s evs2 h1 h2
    have hq : q = p := h1
    rw [hq] at h2
    exact h2
  | cons e rest ih =>
    intro p q s evs2 h1 h2
    cases e with
    | mutate r =>
      obtain ⟨hs, ht⟩ := h1
      exact ⟨hs, ih r q s evs2 ht h2⟩
    | notify r =>
      obtain ⟨hr, ht⟩ := h1
      exact ⟨hr, ih p q s evs2 ht h2⟩
    | fetchStart f => exact ih p q s evs2 h1 h2

/-- Along a run trace the completed counter never decreases and the total
never changes. -/
theorem TraceOK_start_le_end : ∀ (evs : List RunEvent) (p q : DownloadProgress),
    TraceOK p evs q →
    p.downloaded_files ≤ q.downloaded_files ∧ q.total_files = p.total_files := by
  intro evs
  induction evs with
  | nil =>
    intro p q h
    have hq : q = p := h
    rw [hq]
    exact ⟨le_refl _, rfl⟩
  | cons e rest ih =>
    intro p q h
    cases e with
    | mutate r =>
      obtain ⟨⟨hd, htot⟩, ht⟩ := h
      obtain ⟨ih1, ih2⟩ := ih r q ht
      constructor
      · rcases hd with hd | hd <;> omega
      · rw [ih2, htot]
    | notify r =>
      obtain ⟨_, ht⟩ := h
      exact ih p q ht
    | fetchStart f => exact ih p q h

/-- Every snapshot observed along a run trace sits between the start and
end counters, with the committed total unchanged. -/
theorem TraceOK_mem : ∀ (evs : List RunEvent) (p q : DownloadProgress),
    TraceOK p evs q → ∀ s ∈ statesOf evs,
    p.downloaded_files ≤ s.downloaded_files ∧
    s.downloaded_files ≤ q.downloaded_files ∧
    s.total_files = p.total_files := by
  intro evs
  induction evs with
  | nil =>
    intro p q _h s hs
    simp [statesOf] at hs
  | cons e rest ih =>
    intro p q h s hs
    cases e with
    | mutate r =>
      obtain ⟨⟨hd, htot⟩, ht⟩ := h
      have hs' : s = r ∨ s ∈ statesOf rest := List.mem_cons.mp hs
      rcases hs' with hs' | hs'
      · subst hs'
        obtain ⟨h1, _h2⟩ := TraceOK_start_le_end rest s q ht
        refine ⟨?_, h1, htot⟩
        rcases hd with hd | hd <;> omega
      · obtain ⟨h1, h2, h3⟩ := ih r q ht s hs'
        refine ⟨?_, h2, by rw [h3, htot]⟩
        rcases hd with hd | hd <;> omega
    | notify r =>
      obtain ⟨hr, ht⟩ := h
      subst hr
      have hs' : s = r ∨ s ∈ statesOf rest := List.mem_cons.mp hs
      rcases hs' with hs' | hs'
      · subst hs'
        exact ⟨le_refl _, (TraceOK_start_le_end rest s q ht).1, rfl⟩
      · exact ih r q ht s hs'
    | fetchStart f => exact ih p q h s hs

/-- The snapshots observed along a run trace, with the start prepended,
form a `StepOK` chain. -/
theorem TraceOK_chain : ∀ (evs : List RunEvent) (p q : DownloadProgress),
    TraceOK p evs q → List.Chain' StepOK (p :: statesOf evs) := by
  intro evs
  induction evs with
  | nil =>
    intro p q _h
    simp [statesOf]
  | cons e rest ih =>
    intro p q h
    cases e with
    | mutate r =>
      obtain ⟨hs, ht⟩ := h
      exact List.chain'_cons.mpr ⟨hs, ih r q ht⟩
    | notify r =>
      obtain ⟨hr, ht⟩ := h
      subst hr
      exact List.chain'_cons.mpr ⟨⟨Or.inl rfl, rfl⟩, ih r q ht⟩
    | fetchStart f => exact ih p q h

/-- Settling one page is a valid trace extension. -/
theorem page_step_trace (fetch : Page → Bool) (cp : String) (acc : PageAcc) (page : Page)
    (pstart : DownloadProgress) (h : TraceOK pstart acc.events acc.progress) :
    TraceOK pstart (page_step fetch cp acc page).events
      (page_step fetch cp acc page).progress := by
  refine TraceOK_append acc.events pstart acc.progress _ _ h ?_
  exact ⟨⟨Or.inr rfl, rfl⟩, ⟨Or.inl rfl, rfl⟩, rfl⟩

/-- The per-page fold preserves trace validity. -/
theorem page_fold_trace (fetch : Page → Bool) (cp : String) :
    ∀ (pages : List Page) (acc : PageAcc) (pstart : DownloadProgress),
    TraceOK pstart acc.events acc.progress →
    TraceOK pstart (pages.foldl (page_step fetch cp) acc).events
      (pages.foldl (page_step fetch cp) acc).progress := by
  intro pages
  induction pages with
  | nil => intro acc pstart h; exact h
  | cons page rest ih =>
    intro acc pstart h
    rw [List.foldl_cons]
    exact ih _ pstart (page_step_trace fetch cp acc page pstart h)

/-- `_download_chapter` emits a valid trace from the progress state it was
given to the one it leaves behind. -/
theorem download_chapter_trace (fetch : Page → Bool) (p : DownloadProgress)
    (manga : Manga) (chapter : Chapter) :
    TraceOK p (download_chapter fetch p manga chapter).events
      (download_chapter fetch p manga chapter).progress := by
  unfold download_chapter
  by_cases h1 : chapter.pages = []
  · rw [if_pos h1]
    exact rfl
  · rw [if_neg h1]
    cases hdp : manga.download_path with
    | none => exact rfl
    | some base =>
      refine TraceOK_append _ p _ _ _ (page_fold_trace fetch _ _ _ p ?_) ?_
      · exact ⟨⟨Or.inl rfl, rfl⟩, rfl⟩
      · exact ⟨⟨Or.inl rfl, rfl⟩, ⟨Or.inl rfl, rfl⟩, rfl, rfl⟩

/-- Downloading one chapter is a valid trace extension. -/
theorem chapter_step_trace (fetch : Page → Bool) (manga : Manga) (acc : ChapterAcc)
    (chapter : Chapter) (pstart : DownloadProgress)
    (h : TraceOK pstart acc.events acc.progress) :
    TraceOK pstart (chapter_step fetch manga acc chapter).events
      (chapter_step fetch manga acc chapter).progress :=
  TraceOK_append acc.events pstart acc.progress _ _ h
    (download_chapter_trace fetch acc.progress manga chapter)

/-- The per-chapter fold preserves trace validity. -/
theorem chapter_fold_trace (fetch : Page → Bool) (manga : Manga) :
    ∀ (chapters : List Chapter) (acc : ChapterAcc) (pstart : DownloadProgress),
    TraceOK pstart acc.events acc.progress →
    TraceOK pstart (chapters.foldl (chapter_step fetch manga) acc).events
      (chapters.foldl (chapter_step fetch manga) acc).progress := by
  intro chapters
  induction chapters with
  | nil => intro acc pstart h; exact h
  | cons c rest ih =>
    intro acc pstart h
    rw [List.foldl_cons]
    exact ih _ pstart (chapter_step_trace fetch manga acc c pstart h)

/-- A whole `download_manga` run emits a valid trace, starting from the
snapshot holding the committed total (the completed counter of a fresh
run is 0 on entry). -/
theorem download_manga_trace (fetch : Page → Bool) (cwd : String) (d : MangaDownloader)
    (manga : Manga) (dpath : Option String) (h0 : d.progress.downloaded_files = 0) :
    TraceOK
      { d.progress with total_files := totalPages (setup_download_path cwd manga dpath) }
      (download_manga fetch cwd d manga dpath).events
      (download_manga fetch cwd d manga dpath).progress := by
  unfold download_manga
  refine TraceOK_append _ _ _ _ _ (chapter_fold_trace fetch _ _ _ _ ?_) ?_
  · exact ⟨⟨Or.inl rfl, rfl⟩, ⟨Or.inl h0.symm, rfl⟩, ⟨Or.inl rfl, rfl⟩, rfl⟩
  · exact ⟨⟨Or.inl rfl, rfl⟩, rfl, rfl⟩

/-- The per-page fold starts exactly one fetch per page. -/
theorem page_fold_fetchCount (fetch : Page → Bool) (cp : String) :
    ∀ (pages : List Page) (acc : PageAcc),
    ((pages.foldl (page_step fetch cp) acc).events).countP isFetchStart =
      acc.events.countP isFetchStart + pages.length := by
  intro pages
  induction pages with
  | nil => intro acc; simp
  | cons page rest ih =>
    intro acc
    rw [List.foldl_cons, ih]
    simp [page_step, settle_page, List.countP_append, List.countP_cons, isFetchStart]
    omega

/-- With the base path set, `_download_chapter` starts one fetch per page
of the chapter (also when the page list is empty: zero each). -/
theorem download_chapter_fetchCount (fetch : Page → Bool) (p : DownloadProgress)
    (manga : Manga) (chapter : Chapter) (base : String)
    (h : manga.download_path = some base) :
    (download_chapter fetch p manga chapter).events.countP isFetchStart =
      chapter.pages.length := by
  unfold download_chapter
  by_cases h1 : chapter.pages = []
  · simp [h1]
  · rw [if_neg h1, h]
    simp [List.countP_append, List.countP_cons, isFetchStart, page_fold_fetchCount]

/-- With the base path set, `_download_chapter` increments the completed
counter once per page of the chapter. -/
theorem download_chapter_downloaded (fetch : Page → Bool) (p : DownloadProgress)
    (manga : Manga) (chapter : Chapter) (base : String)
    (h : manga.download_path = some base) :
    (download_chapter fetch p manga chapter).progress.downloaded_files =
      p.downloaded_files + chapter.pages.length := by
  unfold download_chapter
  by_cases h1 : chapter.pages = []
  · simp [h1]
  · rw [if_neg h1, h]
    simp [page_fold_downloaded]

/-- The per-chapter fold starts one fetch per page overall. -/
theorem chapter_fold_fetchCount (fetch : Page → Bool) (manga : Manga) (base : String)
    (h : manga.download_path = some base) :
    ∀ (chapters : List Chapter) (acc : ChapterAcc),
    ((chapters.foldl (chapter_step fetch manga) acc).events).countP isFetchStart =
      acc.events.countP isFetchStart + (chapters.map (fun c => c.pages.length)).sum := by
  intro chapters
  induction chapters with
  | nil => intro acc; simp
  | cons c rest ih =>
    intro acc
    rw [List.foldl_cons, ih]
    simp only [chapter_step, List.countP_append]
    rw [download_chapter_fetchCount fetch acc.progress manga c base h]
    simp
    omega

/-- The per-chapter fold increments the completed counter once per page
overall. -/
theorem chapter_fold_downloaded (fetch : Page → Bool) (manga : Manga) (base : String)
    (h : manga.download_path = some base) :
    ∀ (chapters : List Chapter) (acc : ChapterAcc),
    ((chapters.foldl (chapter_step fetch manga) acc).progress).downloaded_files =
      acc.progress.downloaded_files + (chapters.map (fun c => c.pages.length)).sum := by
  intro chapters
  induction chapters with
  | nil => intro acc; simp
  | cons c rest ih =>
    intro acc
    rw [List.foldl_cons, ih]
    simp only [chapter_step]
    rw [download_chapter_downloaded fetch acc.progress manga c base h]
    simp
    omega

/-- The path setup always leaves a base directory set. -/
theorem setup_download_path_isSome (cwd : String) (manga : Manga)
    (dpath : Option String) :
    ∃ base, (setup_download_path cwd manga dpath).download_path = some base := by
  unfold setup_download_path Manga.create_download_structure
  cases dpath with
  | some p => exact ⟨p, rfl⟩
  | none =>
    cases hm : manga.download_path with
    | some b => exact ⟨b, hm⟩
    | none => exact ⟨pathJoin (pathJoin cwd "downloads") (sanitize_title manga.title), rfl⟩

/-- The path setup does not change the committed total. -/
theorem totalPages_setup (cwd : String) (manga : Manga) (dpath : Option String) :
    totalPages (setup_download_path cwd manga dpath) = totalPages manga := by
  unfold totalPages
  rw [setup_download_path_chapters]

/-- A run starts one fetch per page of the submitted manga. -/
theorem download_manga_fetchCount (fetch : Page → Bool) (cwd : String)
    (d : MangaDownloader) (manga : Manga) (dpath : Option String) :
    (download_manga fetch cwd d manga dpath).events.countP isFetchStart =
      totalPages manga := by
  obtain ⟨base, hb⟩ := setup_download_path_isSome cwd manga dpath
  have ht : ((setup_download_path cwd manga dpath).chapters.map
      (fun c => c.pages.length)).sum = totalPages manga := by
    rw [← totalPages_setup cwd manga dpath]
    rfl
  unfold download_manga
  simp only [List.countP_append]
  rw [chapter_fold_fetchCount fetch (setup_download_path cwd manga dpath) base hb]
  simp [List.countP_cons, isFetchStart, ht]

/-- A run's final completed counter equals the number of pages of the
submitted manga, whatever the per-page outcomes were. -/
theorem download_manga_downloaded (fetch : Page → Bool) (cwd : String)
    (d : MangaDownloader) (manga : Manga) (dpath : Option String) :
    (download_manga fetch cwd d manga dpath).progress.downloaded_files =
      totalPages manga := by
  obtain ⟨base, hb⟩ := setup_download_path_isSome cwd manga dpath
  have ht : ((setup_download_path cwd manga dpath).chapters.map
      (fun c => c.pages.length)).sum = totalPages manga := by
    rw [← totalPages_setup cwd manga dpath]
    rfl
  unfold download_manga
  simp only [chapter_fold_downloaded fetch (setup_download_path cwd manga dpath) base hb]
  simp [ht]

/-- C4: starting from a fresh counter, a run increments the completed
counter exactly once per settled asset fetch — one fetch is started per
page and the final counter equals the page total whatever the outcomes —
the observed snapshots step by at most one with the committed total
untouched (`StepOK` chain, hence the counter is monotonically
non-decreasing during the run), and no observed snapshot's completed
count exceeds its committed total. -/
theorem C4_completed_counter (fetch : Page → Bool) (cwd : String) (d : MangaDownloader)
    (manga : Manga) (dpath : Option String) (h0 : d.progress.downloaded_files = 0) :
    (download_manga fetch cwd d manga dpath).events.countP isFetchStart =
      totalPages manga ∧
    (download_manga fetch cwd d manga dpath).progress.downloaded_files =
      totalPages manga ∧
    List.Chain' StepOK (statesOf (download_manga fetch cwd d manga dpath).events) ∧
    ∀ s ∈ statesOf (download_manga fetch cwd d manga dpath).events,
      s.downloaded_files ≤ s.total_files := by
  refine ⟨download_manga_fetchCount fetch cwd d manga dpath,
          download_manga_downloaded fetch cwd d manga dpath, ?_, ?_⟩
  · exact (TraceOK_chain _ _ _ (download_manga_trace fetch cwd d manga dpath h0)).tail
  · intro s hs
    obtain ⟨_h1, h2, h3⟩ :=
      TraceOK_mem _ _ _ (download_manga_trace fetch cwd d manga dpath h0) s hs
    rw [download_manga_downloaded fetch cwd d manga dpath] at h2
    have hts : s.total_files = totalPages manga := by
      rw [h3]
      exact totalPages_setup cwd manga dpath
    rw [hts]
    exact h2

/-- Witness for C4: a one-chapter, one-page run (with a failing fetch)
starts 1 fetch, ends with the counter at 1, and respects the chain and
bound. -/
theorem C4_completed_counter_witness :
    (download_manga (fun _ => false) "/cwd" {}
      { title := "m", url := "u", chapters :=
        [{ title := "c1", number := 1, url := "cu", pages :=
          [{ url := "a", filename := "f1.jpg", page_number := 1 }] }] }
      (some "/d")).events.countP isFetchStart =
      totalPages { title := "m", url := "u", chapters :=
        [{ title := "c1", number := 1, url := "cu", pages :=
          [{ url := "a", filename := "f1.jpg", page_number := 1 }] }] } ∧
    (download_manga (fun _ => false) "/cwd" {}
      { title := "m", url := "u", chapters :=
        [{ title := "c1", number := 1, url := "cu", pages :=
          [{ url := "a", filename := "f1.jpg", page_number := 1 }] }] }
      (some "/d")).progress.downloaded_files =
      totalPages { title := "m", url := "u", chapters :=
        [{ title := "c1", number := 1, url := "cu", pages :=
          [{ url := "a", filename := "f1.jpg", page_number := 1 }] }] } ∧
    List.Chain' StepOK (statesOf (download_manga (fun _ => false) "/cwd" {}
      { title := "m", url := "u", chapters :=
        [{ title := "c1", number := 1, url := "cu", pages :=
          [{ url := "a", filename := "f1.jpg", page_number := 1 }] }] }
      (some "/d")).events) ∧
    ∀ s ∈ statesOf (download_manga (fun _ => false) "/cwd" {}
      { title := "m", url := "u", chapters :=
        [{ title := "c1", number := 1, url := "cu", pages :=
          [{ url := "a", filename := "f1.jpg", page_number := 1 }] }] }
      (some "/d")).events, s.downloaded_files ≤ s.total_files :=
  C4_completed_counter (fun _ => false) "/cwd" {}
    { title := "m", url := "u", chapters :=
      [{ title := "c1", number := 1, url := "cu", pages :=
        [{ url := "a", filename := "f1.jpg", page_number := 1 }] }] }
    (some "/d") rfl

/-- C6 counterexample: in a concrete one-chapter, one-page run, not every
mutation of the progress state is followed by an observer notification —
the commit of `total_files`, the counter reset, the status change, the
per-page counter increments and the `current_*` updates all happen
without a dispatch; `_notify_progress` runs only at chapter completion
and at the end of the run. -/
theorem C6_counterexample :
    mutationsNotified (download_manga (fun _ => true) "/cwd" {}
      { title := "m", url := "u", chapters :=
        [{ title := "c1", number := 1, url := "cu", pages :=
          [{ url := "a", filename := "f1.jpg", page_number := 1 }] }] }
      (some "/d")).events = false := by
  decide

/-- C6 amended: whenever `_notify_progress` runs (which is after each
chapter completes and at run completion and the pause/resume/stop
controls — not after every mutation), every registered callback is
invoked, in registration order, with the current snapshot, regardless of
which callbacks raise; a raising callback only adds a log entry and never
prevents the remaining invocations. -/
theorem C6_notify_invocation_order (behav : Nat → DownloadProgress → Except String Unit)
    (cbs : List Nat) (p : DownloadProgress) :
    (notify_progress behav cbs p).1 = cbs.map (fun cb => (cb, p)) ∧
    (notify_progress behav cbs p).2.length =
      cbs.countP (fun cb => match behav cb p with
        | Except.error _ => true
        | Except.ok _ => false) := by
  induction cbs with
  | nil => exact ⟨rfl, rfl⟩
  | cons cb rest ih =>
    cases hb : behav cb p with
    | ok u => simp [notify_progress, hb, ih.1, ih.2, List.countP_cons]
    | error e => simp [notify_progress, hb, ih.1, ih.2, List.countP_cons]

/-- C8: the shared cancellation signal raised by `pause_download` is never
checked by any worker — a run on a downloader whose signal is set behaves
exactly like one whose signal is clear, and still starts every per-asset
fetch (one per page), contradicting "no new per-asset fetch begins after
the signal is raised". -/
theorem C8_cancellation_signal_ignored (fetch : Page → Bool) (cwd : String)
    (d : MangaDownloader) (manga : Manga) (dpath : Option String) :
    ((pause_download d).1).stop_event = true ∧
    download_manga fetch cwd (pause_download d).1 manga dpath =
      download_manga fetch cwd { (pause_download d).1 with stop_event := false } manga dpath ∧
    (download_manga fetch cwd (pause_download d).1 manga dpath).events.countP isFetchStart =
      totalPages manga :=
  ⟨rfl, rfl, download_manga_fetchCount fetch cwd (pause_download d).1 manga dpath⟩

/-- `Nat.digitChar` never renders a decimal point. -/
theorem digitChar_ne_dot (d : Nat) : Nat.digitChar d ≠ '.' := by
  by_cases h : d < 16
  · exact (by decide : ∀ x, x < 16 → Nat.digitChar x ≠ '.') d h
  · unfold Nat.digitChar
    repeat rw [if_neg (by omega)]
    decide

/-- `Nat.digitChar` is injective on single digits. -/
theorem digitChar_inj_lt10 : ∀ d1, d1 < 10 → ∀ d2, d2 < 10 →
    Nat.digitChar d1 = Nat.digitChar d2 → d1 = d2 := by decide

/-- Trailing zeros in a little-endian digit list carry no value. -/
theorem ofDigits_replicate_zero : ∀ k, Nat.ofDigits 10 (List.replicate k 0) = 0 := by
  intro k
  induction k with
  | zero => rfl
  | succ m ih =>
    rw [List.replicate_succ, Nat.ofDigits_cons, ih]

/-- The zero-padded digit list still denotes `n`. -/
theorem ofDigits_padDigits3 (n : Nat) : Nat.ofDigits 10 (padDigits3 n) = n := by
  unfold padDigits3
  rw [Nat.ofDigits_append, Nat.ofDigits_digits, ofDigits_replicate_zero]
  simp

/-- Every entry of the padded digit list is a single digit. -/
theorem padDigits3_lt (n : Nat) : ∀ x ∈ padDigits3 n, x < 10 := by
  intro x hx
  unfold padDigits3 at hx
  rcases List.mem_append.mp hx with hx | hx
  · exact Nat.digits_lt_base (by norm_num) hx
  · rw [List.eq_of_mem_replicate hx]
    norm_num

/-- Rendering digit lists to characters is injective. -/
theorem map_digitChar_inj : ∀ (l1 l2 : List Nat), (∀ x ∈ l1, x < 10) →
    (∀ x ∈ l2, x < 10) → l1.map Nat.digitChar = l2.map Nat.digitChar → l1 = l2 := by
  intro l1
  induction l1 with
  | nil =>
    intro l2 _ _ h
    cases l2 with
    | nil => rfl
    | cons b t2 => simp at h
  | cons a t ih =>
    intro l2 h1 h2 h
    cases l2 with
    | nil => simp at h
    | cons b t2 =>
      simp only [List.map_cons, List.cons.injEq] at h
      have ha := h1 a (List.mem_cons_self a t)
      have hb := h2 b (List.mem_cons_self b t2)
      rw [digitChar_inj_lt10 a ha b hb h.1,
        ih t2 (fun x hx => h1 x (List.mem_cons_of_mem _ hx))
          (fun x hx => h2 x (List.mem_cons_of_mem _ hx)) h.2]

/-- The zero-padded rendering `f"{n:03d}"` is injective. -/
theorem pad3_inj : ∀ n1 n2 : Nat, pad3 n1 = pad3 n2 → n1 = n2 := by
  intro n1 n2 h
  have hdata : ((padDigits3 n1).reverse.map Nat.digitChar) =
      ((padDigits3 n2).reverse.map Nat.digitChar) := congrArg String.data h
  have hrev : (padDigits3 n1).reverse = (padDigits3 n2).reverse :=
    map_digitChar_inj _ _ (fun x hx => padDigits3_lt n1 x (List.mem_reverse.mp hx))
      (fun x hx => padDigits3_lt n2 x (List.mem_reverse.mp hx)) hdata
  have hpad : padDigits3 n1 = padDigits3 n2 := List.reverse_injective hrev
  have hval := congrArg (Nat.ofDigits 10) hpad
  rwa [ofDigits_padDigits3, ofDigits_padDigits3] at hval

/-- Distinct ordinals give distinct page filenames. -/
theorem page_filename_inj : ∀ n1 n2 : Nat, n1 ≠ n2 →
    page_filename n1 ≠ page_filename n2 := by
  intro n1 n2 hne h
  apply hne
  apply pad3_inj
  have hd : ("page_".data ++ (pad3 n1).data) ++ ".jpg".data =
      ("page_".data ++ (pad3 n2).data) ++ ".jpg".data := congrArg String.data h
  have h1 : "page_".data ++ (pad3 n1).data = "page_".data ++ (pad3 n2).data :=
    List.append_cancel_right hd
  exact String.ext (List.append_cancel_left h1)

/-- No decimal point in either part means none in the concatenation. -/
theorem dot_not_mem_append (s t : String) (hs : '.' ∉ s.data) (ht : '.' ∉ t.data) :
    '.' ∉ (s ++ t).data := by
  intro hmem
  rcases List.mem_append.mp hmem with h | h
  · exact hs h
  · exact ht h

/-- The decimal rendering of a natural never contains a point. -/
theorem dot_not_mem_natStr (n : Nat) : '.' ∉ (natStr n).data := by
  unfold natStr
  split
  · decide
  · intro hmem
    obtain ⟨d, _, hd⟩ := List.mem_map.mp hmem
    exact digitChar_ne_dot d hd

/-- The decimal rendering of an integer never contains a point. -/
theorem dot_not_mem_intStr (i : Int) : '.' ∉ (intStr i).data := by
  unfold intStr
  split
  · intro hmem
    rcases List.mem_append.mp hmem with hm | hm
    · exact absurd (List.mem_singleton.mp hm) (by decide)
    · exact dot_not_mem_natStr _ hm
  · exact dot_not_mem_natStr _

/-- A single digit renders to a one-character string. -/
theorem natStr_length_one (n : Nat) (h : n < 10) : (natStr n).length = 1 := by
  unfold natStr
  split
  · rfl
  · next h0 =>
    rw [Nat.digits_def' (by norm_num : (1:ℕ) < 10) (Nat.pos_of_ne_zero h0),
      Nat.mod_eq_of_lt h, Nat.div_eq_of_lt h, Nat.digits_zero]
    rfl

/-- C9: the chapter folder name is deterministic from the chapter key;
integer keys render without a decimal point; fractional keys render with
exactly one decimal place (one point, a single character after it, no
point elsewhere); and the page filename is deterministic from the ordinal
with distinct ordinals never colliding. -/
theorem C9_names_deterministic_and_collision_free :
    (∀ c1 c2 : Chapter, c1.number = c2.number →
      c1.chapter_folder_name = c2.chapter_folder_name) ∧
    (∀ c : Chapter, c.number.den = 1 → '.' ∉ c.chapter_folder_name.data) ∧
    (∀ c : Chapter, c.number.den ≠ 1 → ∃ a b : String,
      c.chapter_folder_name = a ++ "." ++ b ∧ b.length = 1 ∧
      '.' ∉ a.data ∧ '.' ∉ b.data) ∧
    (∀ n1 n2 : Nat, n1 ≠ n2 → page_filename n1 ≠ page_filename n2) := by
  refine ⟨?_, ?_, ?_, page_filename_inj⟩
  · intro c1 c2 h
    simp [Chapter.chapter_folder_name, h]
  · intro c hden
    unfold Chapter.chapter_folder_name
    rw [if_pos hden]
    exact dot_not_mem_append _ _ (by decide) (dot_not_mem_intStr _)
  · intro c hden
    unfold Chapter.chapter_folder_name
    rw [if_neg hden]
    refine ⟨"Chapter_" ++ ((if roundHalfEven (c.number * 10) < 0 then "-" else "") ++
      natStr ((roundHalfEven (c.number * 10)).natAbs / 10)),
      natStr ((roundHalfEven (c.number * 10)).natAbs % 10), ?_, ?_, ?_, ?_⟩
    · show "Chapter_" ++ format1f c.number = _
      unfold format1f
      simp [String.append_assoc]
    · exact natStr_length_one _ (Nat.mod_lt _ (by norm_num))
    · refine dot_not_mem_append _ _ (by decide) (dot_not_mem_append _ _ ?_ (dot_not_mem_natStr _))
      split <;> decide
    · exact dot_not_mem_natStr _

/-- Witness for C9 at concrete keys and ordinals: key 7 and key 3/2, and
ordinals 2 versus 3. -/
theorem C9_witness :
    ({ title := "x", number := 7, url := "u" } : Chapter).chapter_folder_name =
      ({ title := "y", number := 7, url := "v" } : Chapter).chapter_folder_name ∧
    '.' ∉ ({ title := "x", number := 7, url := "u" } : Chapter).chapter_folder_name.data ∧
    (∃ a b : String,
      ({ title := "z", number := ⟨3, 2, by decide, by decide⟩, url := "w" } :
        Chapter).chapter_folder_name = a ++ "." ++ b ∧ b.length = 1 ∧
      '.' ∉ a.data ∧ '.' ∉ b.data) ∧
    page_filename 2 ≠ page_filename 3 :=
  ⟨C9_names_deterministic_and_collision_free.1 _ _ rfl,
   C9_names_deterministic_and_collision_free.2.1 _ (by decide),
   C9_names_deterministic_and_collision_free.2.2.1 _ (by decide),
   C9_names_deterministic_and_collision_free.2.2.2 2 3 (by decide)⟩

end VyManga
